import Mathlib

/-!
A shallow embedding of `src/challenge/react/src/create-user-form.tsx`:
the password rule engine (`PASSWORD_CRITERIA`, `activeCriteria`), the
derived validity flags, and the submission handler (`handleSubmit`),
together with a small event-step semantics for the rendered form.
Strings are modelled as sequences of characters; string length is the
character count.
-/

/-- Characters matched by the JavaScript regex class `\s` (used by the
no-spaces rule and by JavaScript string trimming). -/
def isJsSpace (c : Char) : Bool :=
  c == ' ' || c == '\t' || c == '\n' || c == '\x0B' || c == '\x0C' || c == '\r' ||
  c == '\u00A0' || c == '\u1680' || ('\u2000' ≤ c && c ≤ '\u200A') ||
  c == '\u2028' || c == '\u2029' || c == '\u202F' || c == '\u205F' ||
  c == '\u3000' || c == '\uFEFF'

/-- Characters matched by the JavaScript regex class `\d`. -/
def isDigitChar (c : Char) : Bool := '0' ≤ c && c ≤ '9'

/-- Characters matched by the JavaScript regex class `[A-Z]`. -/
def isUpperLatin (c : Char) : Bool := 'A' ≤ c && c ≤ 'Z'

/-- Characters matched by the JavaScript regex class `[a-z]`. -/
def isLowerLatin (c : Char) : Bool := 'a' ≤ c && c ≤ 'z'

/-- One password rule, as in the `PASSWORD_CRITERIA` array entries. -/
structure Criterion where
  id : String
  label : String
  validate : String → Bool

/-- The `PASSWORD_CRITERIA` constant (create-user-form.tsx lines 8-15),
in declaration order, with the exact labels of the source. -/
def PASSWORD_CRITERIA : List Criterion :=
  [ { id := "min-length", label := "Password must be at least 10 characters long",
      validate := fun p => decide (10 ≤ p.length) },
    { id := "max-length", label := "Password must be at most 24 characters long",
      validate := fun p => decide (p.length ≤ 24) },
    { id := "no-spaces", label := "Password cannot contain spaces",
      validate := fun p => !(p.data.any isJsSpace) },
    { id := "has-number", label := "Password must contain at least one number",
      validate := fun p => p.data.any isDigitChar },
    { id := "has-upper", label := "Password must contain at least one uppercase letter",
      validate := fun p => p.data.any isUpperLatin },
    { id := "has-lower", label := "Password must contain at least one lowercase letter",
      validate := fun p => p.data.any isLowerLatin } ]

/-- The rule engine, `activeCriteria` (lines 25-28): for a falsy (empty)
password every label is returned; otherwise the labels of the criteria
whose `validate` fails, in declaration order. -/
def activeCriteria (password : String) : List String :=
  if password = "" then PASSWORD_CRITERIA.map fun c => c.label
  else (PASSWORD_CRITERIA.filter fun c => !(c.validate password)).map fun c => c.label

/-- `isPasswordValid` (line 30): `activeCriteria.length === 0 && password.length > 0`. -/
def isPasswordValid (p : String) : Bool :=
  decide ((activeCriteria p).length = 0) && decide (0 < p.length)

/-- Model of JavaScript `String.prototype.trim`: strips the `\s`
characters from both ends. -/
def jsTrim (s : String) : String :=
  String.mk (((s.data.dropWhile isJsSpace).reverse.dropWhile isJsSpace).reverse)

/-- The mutable state of the component: the four `useState` cells of
`CreateUserForm` (lines 20-23). `apiError` plays the role the spec calls
`lastError`; `isLoading` is the Submitting flag. -/
structure FormState where
  username : String
  password : String
  apiError : Option String
  isLoading : Bool
deriving DecidableEq

/-- `isFormValid` (line 31): `username.trim().length > 0 && isPasswordValid`. -/
def isFormValid (s : FormState) : Bool :=
  decide (0 < (jsTrim s.username).length) && isPasswordValid s.password

def authErrorMsg : String := "Not authenticated to access this resource."

def notAllowedMsg : String :=
  "Sorry, the entered password is not allowed, please try a different one."

def genericErrorMsg : String := "Something went wrong, please try again."

/-- The body of an error response as the transport delivers it: either
JSON that parses, with an optional string `message` field, or a
malformed body on which `response.json()` rejects. -/
inductive ErrorBody where
  | parsed (message : Option String)
  | malformed
deriving DecidableEq

/-- A fault a primitive operation inside the try block can raise. -/
inductive Fault where
  | network
  | parse
deriving DecidableEq

/-- The outcome of the `fetch` call as seen by `handleSubmit`: either the
promise resolves to a response with a status and a body, or it rejects
(network error, timeout). -/
inductive RawOutcome where
  | response (status : Nat) (body : ErrorBody)
  | fetchThrow
deriving DecidableEq

/-- `response.json()` without any handler: parse failure is a fault. -/
def jsonE : ErrorBody → Except Fault (Option String)
  | .parsed m => Except.ok m
  | .malformed => Except.error Fault.parse

/-- `(await response.json().catch(() => ({}))).message` (line 54): the
inline catch turns a parse fault into the empty object, whose `message`
field is absent. -/
def errorDataMessage (b : ErrorBody) : Option String :=
  match jsonE b with
  | Except.ok m => m
  | Except.error _ => none

/-- Model of JavaScript `String.prototype.startsWith` on character lists. -/
def startsWithList : List Char → List Char → Bool
  | _, [] => true
  | [], _ :: _ => false
  | c :: s, p :: ps => c == p && startsWithList s ps

/-- Model of JavaScript `String.prototype.includes` on character lists. -/
def containsSub : List Char → List Char → Bool
  | [], pat => pat.isEmpty
  | c :: t, pat => startsWithList (c :: t) pat || containsSub t pat

/-- `s.includes(pat)` for strings. -/
def strIncludes (s pat : String) : Bool := containsSub s.data pat.data

/-- `errorData.message?.includes('not allowed')` (line 58): false when the
`message` field is absent (optional chaining yields undefined). -/
def bodyMentionsNotAllowed (b : ErrorBody) : Bool :=
  match errorDataMessage b with
  | some m => strIncludes m "not allowed"
  | none => false

/-- The error-classification chain of `handleSubmit` (lines 56-65),
including the separate 500 branch and the final fallback of the source. -/
def classifyError (status : Nat) (body : ErrorBody) : String :=
  if status = 401 ∨ status = 403 then authErrorMsg
  else if status = 400 ∧ bodyMentionsNotAllowed body = true then notAllowedMsg
  else if status = 500 then genericErrorMsg
  else genericErrorMsg

/-- `response.ok` (line 51): status in the 2xx range. -/
def responseOk (status : Nat) : Bool := decide (200 ≤ status ∧ status < 300)

/-- Effects a submission step emits to the outside world: the fetch
requests issued (username and password sent) and the values passed to
the `setUserWasCreated` callback of the owning caller. -/
structure Effects where
  fetches : List (String × String)
  signals : List Bool
deriving DecidableEq

def noEffects : Effects := { fetches := [], signals := [] }

/-- The body of the `try` block of `handleSubmit` (lines 41-66) after the
fetch has settled, with faults propagating: a rejected fetch surfaces as
a `network` fault; the response branch never faults because the inline
catch on `response.json()` is part of it. Returns the updated state and
the values passed to `setUserWasCreated`. -/
def tryBlock (s : FormState) (o : RawOutcome) : Except Fault (FormState × List Bool) :=
  match o with
  | .fetchThrow => Except.error Fault.network
  | .response status body =>
    if responseOk status = true then Except.ok (s, [true])
    else Except.ok ({ s with apiError := some (classifyError status body) }, [])

/-- The continuation of `handleSubmit` after the fetch settles: the try
block, the `catch` clause (line 67-68) that recovers every fault into the
generic message, and the `finally` clause (line 69-71) that clears
`isLoading`. -/
def submitFinish (s : FormState) (o : RawOutcome) : FormState × List Bool :=
  match tryBlock s o with
  | Except.ok (s1, sigs) => ({ s1 with isLoading := false }, sigs)
  | Except.error _ => ({ s with apiError := some genericErrorMsg, isLoading := false }, [])

/-- The synchronous prefix of `handleSubmit` (lines 33-39): clear
`apiError`, return early when `isFormValid` is false, otherwise set
`isLoading` and initiate the fetch. The Bool reports whether a fetch was
initiated. Note the source clears `apiError` before the validity check
and does not consult `isLoading` here. -/
def submitStart (s : FormState) : FormState × Bool :=
  let s1 : FormState := { s with apiError := none }
  if isFormValid s1 = true then ({ s1 with isLoading := true }, true)
  else (s1, false)

/-- One whole run of the `handleSubmit` handler (lines 33-72) for a given
fetch outcome: the synchronous prefix followed, when a fetch was
initiated, by the continuation. -/
def handleSubmit (s : FormState) (o : RawOutcome) : FormState × Effects :=
  let r := submitStart s
  if r.2 = true then
    let f := submitFinish r.1 o
    (f.1, { fetches := [(r.1.username, r.1.password)], signals := f.2 })
  else (r.1, noEffects)

/-- The classification table of spec section 4.2, written from the words
of the spec: 401/403 first, then 400 with a body message containing
"not allowed", then one row for 500, any other non-2xx status or an
un-parseable body. Stated separately from `classifyError` so the code
chain can be compared against it. -/
def specClassify (status : Nat) (body : ErrorBody) : String :=
  if status = 401 ∨ status = 403 then authErrorMsg
  else if status = 400 ∧ bodyMentionsNotAllowed body = true then notAllowedMsg
  else genericErrorMsg

/-- `disabled={isLoading || !isFormValid}` on the submit button
(line 116); both text inputs also carry `disabled={isLoading}`
(lines 83, 95), so no user-triggered submit event can occur while a
submission is loading. -/
def buttonDisabled (s : FormState) : Bool := s.isLoading || !(isFormValid s)

/-- The whole rendered workflow: the component state plus the owning
caller cell fed by `setUserWasCreated`, plus whether a fetch initiated by
`submitStart` is still outstanding. -/
structure Sys where
  form : FormState
  userWasCreated : Bool
  inFlight : Bool
deriving DecidableEq

/-- The user-triggered or transport-triggered events the rendered form
can process. -/
inductive Event where
  | setUsernameEv (v : String)
  | setPasswordEv (v : String)
  | submitEv
  | resolveEv (o : RawOutcome)
deriving DecidableEq

/-- The spec submission-status enumeration. -/
inductive Status where
  | Idle
  | Submitting
  | Succeeded
deriving DecidableEq

/-- One event step of the rendered workflow. Input events are ignored
while loading because the inputs are disabled (lines 83, 95); a submit
event is only dispatched when the submit control is enabled (line 116);
a resolve event runs the continuation of the outstanding fetch.
Modelled from the spec: once the success signal has been received the
owning caller discards the form (spec section 3, lifecycle), so no
further event reaches this controller instance; the repository code of
the owner that unmounts the form is not part of the source file. -/
def step (sys : Sys) (e : Event) : Sys × Effects :=
  if sys.userWasCreated = true then (sys, noEffects)
  else
    match e with
    | .setUsernameEv v =>
      if sys.form.isLoading = true then (sys, noEffects)
      else ({ sys with form := { sys.form with username := v } }, noEffects)
    | .setPasswordEv v =>
      if sys.form.isLoading = true then (sys, noEffects)
      else ({ sys with form := { sys.form with password := v } }, noEffects)
    | .submitEv =>
      if buttonDisabled sys.form = true then (sys, noEffects)
      else
        let r := submitStart sys.form
        ({ sys with form := r.1, inFlight := r.2 },
         if r.2 = true then { fetches := [(r.1.username, r.1.password)], signals := [] }
         else noEffects)
    | .resolveEv o =>
      if sys.inFlight = true then
        let f := submitFinish sys.form o
        ({ form := f.1, userWasCreated := sys.userWasCreated || f.2.any (fun b => b),
           inFlight := false },
         { fetches := [], signals := f.2 })
      else (sys, noEffects)

/-- The spec `submissionStatus` abstraction over the rendered workflow:
Succeeded once the success signal is owned by the caller, Submitting
while the component is loading, otherwise Idle. -/
def submissionStatus (sys : Sys) : Status :=
  if sys.userWasCreated = true then Status.Succeeded
  else if sys.form.isLoading = true then Status.Submitting
  else Status.Idle

/-- In a list of criteria with pairwise distinct labels, a label of a
member survives a filter exactly when the filter predicate holds of that
member. -/
theorem label_mem_filter_map (P : Criterion → Bool) :
    ∀ (l : List Criterion), (l.map fun c => c.label).Nodup →
      ∀ {c : Criterion}, c ∈ l →
        ((c.label ∈ (l.filter P).map fun d => d.label) ↔ P c = true) := by
  intro l
  induction l with
  | nil => intro _ c hc; cases hc
  | cons a t ih =>
    intro hnd c hc
    rw [List.map_cons, List.nodup_cons] at hnd
    rcases List.mem_cons.mp hc with h | hct
    · subst h
      rw [List.filter_cons]
      by_cases hPa : P c = true
      · rw [if_pos hPa]
        simp [hPa]
      · rw [if_neg hPa]
        refine ⟨fun hmem => absurd ?_ hnd.1, fun h => absurd h hPa⟩
        rcases List.mem_map.mp hmem with ⟨d, hd, hlab⟩
        exact hlab ▸ List.mem_map_of_mem _ ((List.filter_sublist t).subset hd)
    · rw [List.filter_cons]
      by_cases hPa : P a = true
      · rw [if_pos hPa, List.map_cons, List.mem_cons]
        have hne : c.label ≠ a.label := by
          intro he
          exact hnd.1 (he ▸ List.mem_map_of_mem _ hct)
        constructor
        · rintro (he | hm)
          · exact absurd he hne
          · exact (ih hnd.2 hct).mp hm
        · intro h
          exact Or.inr ((ih hnd.2 hct).mpr h)
      · rw [if_neg hPa]
        exact ih hnd.2 hct

/-- Claim C1: for every password string, the unmet-rule list returned by
`activeCriteria` is empty exactly when the password satisfies all six
rules: length at least 10, length at most 24, no whitespace character,
at least one decimal digit, at least one uppercase Latin letter, and at
least one lowercase Latin letter. -/
theorem claim_C1_unmet_empty_iff_all_rules (p : String) :
    activeCriteria p = [] ↔
      (10 ≤ p.length ∧ p.length ≤ 24 ∧ (∀ c ∈ p.data, isJsSpace c = false) ∧
       (∃ c ∈ p.data, isDigitChar c = true) ∧ (∃ c ∈ p.data, isUpperLatin c = true) ∧
       (∃ c ∈ p.data, isLowerLatin c = true)) := by
  by_cases hp : p = ""
  · subst hp
    constructor
    · intro h
      exact absurd h (by decide)
    · rintro ⟨h10, -⟩
      exact absurd h10 (by decide)
  · rw [activeCriteria, if_neg hp, List.map_eq_nil_iff, List.filter_eq_nil_iff]
    simp [PASSWORD_CRITERIA, List.any_eq_true, Bool.not_eq_true',
      List.any_eq_false, and_assoc]

/-- Claim C8: evaluating the rule engine on the empty string returns all
six rule descriptions, in declaration order. -/
theorem claim_C8_empty_all_rules :
    activeCriteria "" =
      [ "Password must be at least 10 characters long",
        "Password must be at most 24 characters long",
        "Password cannot contain spaces",
        "Password must contain at least one number",
        "Password must contain at least one uppercase letter",
        "Password must contain at least one lowercase letter" ] := by decide

/-- Claim C9: for every non-empty password, a rule description is in the
unmet list exactly when the predicate of that rule returns false on the
full password, and the unmet list is a sublist of the declared rule
descriptions, so its order is the declaration order regardless of the
input. -/
theorem claim_C9_membership_and_order (p : String) (hp : p ≠ "") :
    (∀ c ∈ PASSWORD_CRITERIA, ((c.label ∈ activeCriteria p) ↔ c.validate p = false)) ∧
    List.Sublist (activeCriteria p) (PASSWORD_CRITERIA.map fun c => c.label) := by
  have hact : activeCriteria p
      = (PASSWORD_CRITERIA.filter fun c => !(c.validate p)).map fun c => c.label := by
    rw [activeCriteria, if_neg hp]
  constructor
  · intro c hc
    rw [hact, label_mem_filter_map _ PASSWORD_CRITERIA (by decide) hc]
    simp
  · rw [hact]
    exact (List.filter_sublist PASSWORD_CRITERIA).map _

/-- Witness for claim C9 at the concrete password "a". -/
theorem claim_C9_membership_and_order_witness :
    ("a" : String) ≠ "" ∧
    ((∀ c ∈ PASSWORD_CRITERIA, ((c.label ∈ activeCriteria "a") ↔ c.validate "a" = false)) ∧
     List.Sublist (activeCriteria "a") (PASSWORD_CRITERIA.map fun c => c.label)) :=
  ⟨by decide, claim_C9_membership_and_order "a" (by decide)⟩

/-- Clearing `apiError` does not change validity: `isFormValid` reads
only `username` and `password`. -/
theorem isFormValid_clear (s : FormState) :
    isFormValid { s with apiError := none } = isFormValid s := rfl

theorem submitStart_valid (s : FormState) (h : isFormValid s = true) :
    submitStart s = ({ s with apiError := none, isLoading := true }, true) := by
  simp [submitStart, isFormValid_clear, h]

theorem submitStart_invalid (s : FormState) (h : isFormValid s = false) :
    submitStart s = ({ s with apiError := none }, false) := by
  simp [submitStart, isFormValid_clear, h]

theorem handleSubmit_invalid (s : FormState) (o : RawOutcome) (h : isFormValid s = false) :
    handleSubmit s o = ({ s with apiError := none }, noEffects) := by
  simp [handleSubmit, submitStart_invalid s h]

theorem handleSubmit_valid (s : FormState) (o : RawOutcome) (h : isFormValid s = true) :
    handleSubmit s o =
      ((submitFinish { s with apiError := none, isLoading := true } o).1,
       { fetches := [(s.username, s.password)],
         signals := (submitFinish { s with apiError := none, isLoading := true } o).2 }) := by
  simp [handleSubmit, submitStart_valid s h]

theorem submitFinish_throw (s : FormState) :
    submitFinish s RawOutcome.fetchThrow
      = ({ s with apiError := some genericErrorMsg, isLoading := false }, []) := rfl

theorem submitFinish_ok (s : FormState) (status : Nat) (body : ErrorBody)
    (h : responseOk status = true) :
    submitFinish s (RawOutcome.response status body)
      = ({ s with isLoading := false }, [true]) := by
  simp [submitFinish, tryBlock, h]

theorem submitFinish_err (s : FormState) (status : Nat) (body : ErrorBody)
    (h : responseOk status = false) :
    submitFinish s (RawOutcome.response status body)
      = ({ s with apiError := some (classifyError status body), isLoading := false }, []) := by
  simp [submitFinish, tryBlock, h]

/-- The error-classification chain of the source equals the spec table:
the separate 500 branch and the final fallback of the code coincide with
the merged last row of the table. -/
theorem classifyError_eq_specClassify (status : Nat) (body : ErrorBody) :
    classifyError status body = specClassify status body := by
  by_cases h1 : status = 401 ∨ status = 403
  · rw [classifyError, specClassify, if_pos h1, if_pos h1]
  · rw [classifyError, specClassify, if_neg h1, if_neg h1]
    by_cases h2 : status = 400 ∧ bodyMentionsNotAllowed body = true
    · rw [if_pos h2, if_pos h2]
    · rw [if_neg h2, if_neg h2]
      by_cases h3 : status = 500
      · rw [if_pos h3]
      · rw [if_neg h3]

/-- Claim C2: on every non-2xx response the controller sets `lastError`
by the exact precedence mapping of the spec table: 401 or 403 give the
authentication message; otherwise 400 with a parsed body message
containing "not allowed" gives the password-not-allowed message;
otherwise (500, any other non-2xx status, or an un-parseable body) the
generic message; and the Submitting flag returns to false (Idle). -/
theorem claim_C2_error_classification (s : FormState) (status : Nat) (body : ErrorBody)
    (h : ¬ (200 ≤ status ∧ status < 300)) :
    (submitFinish s (RawOutcome.response status body)).1.apiError
        = some (specClassify status body) ∧
    (submitFinish s (RawOutcome.response status body)).1.isLoading = false := by
  have hok : responseOk status = false := by
    rw [responseOk]
    exact decide_eq_false h
  rw [submitFinish_err s status body hok, classifyError_eq_specClassify]
  exact ⟨rfl, rfl⟩

/-- Witness for claim C2 at the 401 scenario of the spec. -/
theorem claim_C2_error_classification_witness :
    ¬ (200 ≤ 401 ∧ 401 < 300) ∧
    ((submitFinish (FormState.mk "Alice" "Abcdefghi1" none true)
        (RawOutcome.response 401 (ErrorBody.parsed none))).1.apiError
      = some (specClassify 401 (ErrorBody.parsed none)) ∧
     (submitFinish (FormState.mk "Alice" "Abcdefghi1" none true)
        (RawOutcome.response 401 (ErrorBody.parsed none))).1.isLoading = false) :=
  ⟨by decide, claim_C2_error_classification _ 401 _ (by decide)⟩

/-- Claim C7: every invocation of the submit handler that proceeds past
the validity check (the form is valid) exits the Submitting state before
it returns, for every terminating fetch outcome: success, classified
HTTP failure, or transport failure. -/
theorem claim_C7_never_stuck_submitting (s : FormState) (o : RawOutcome)
    (h : isFormValid s = true) :
    (handleSubmit s o).1.isLoading = false := by
  rw [handleSubmit_valid s o h]
  cases o with
  | fetchThrow => rfl
  | response status body =>
    by_cases hok : responseOk status = true
    · rw [submitFinish_ok _ status body hok]
    · rw [submitFinish_err _ status body (by simpa using hok)]

/-- Witness for claim C7 at a valid form and a transport failure. -/
theorem claim_C7_never_stuck_submitting_witness :
    isFormValid (FormState.mk "Alice" "Abcdefghi1" none false) = true ∧
    (handleSubmit (FormState.mk "Alice" "Abcdefghi1" none false)
        RawOutcome.fetchThrow).1.isLoading = false :=
  ⟨by decide, claim_C7_never_stuck_submitting _ RawOutcome.fetchThrow (by decide)⟩

/-- Claim C10: the `setUserWasCreated` callback is only ever passed the
value true, exactly once, and only on the 2xx branch of a submission; on
every other path (invalid form, non-2xx status, transport failure) it is
not invoked at all. -/
theorem claim_C10_signal_only_true_on_2xx (s : FormState) (o : RawOutcome) :
    (handleSubmit s o).2.signals = [] ∨
      ((handleSubmit s o).2.signals = [true] ∧
       ∃ status body, o = RawOutcome.response status body ∧
         200 ≤ status ∧ status < 300) := by
  by_cases hv : isFormValid s = true
  · rw [handleSubmit_valid s o hv]
    cases o with
    | fetchThrow => exact Or.inl rfl
    | response status body =>
      by_cases hok : responseOk status = true
      · refine Or.inr ⟨?_, status, body, rfl, ?_⟩
        · rw [submitFinish_ok _ status body hok]
        · exact of_decide_eq_true hok
      · rw [submitFinish_err _ status body (by simpa using hok)]
        exact Or.inl rfl
  · rw [handleSubmit_invalid s o (by simpa using hv)]
    exact Or.inl rfl

/-- Counterexample to claim C4 as stated: at a state whose username is
blank after trimming (so submission is not permitted) and whose
`lastError` is set, invoking the submit handler does change the state:
it clears `lastError` before the validity check; and at a state with a
submission already in flight (`isLoading` true) and a valid form, the
raw handler does issue a network call, because it never consults
`isLoading`. -/
theorem claim_C4_counterexample :
    (jsTrim (FormState.mk "" "Abcdefghi1" (some genericErrorMsg) false).username).length = 0 ∧
    (handleSubmit (FormState.mk "" "Abcdefghi1" (some genericErrorMsg) false)
        RawOutcome.fetchThrow).1
      ≠ FormState.mk "" "Abcdefghi1" (some genericErrorMsg) false ∧
    (FormState.mk "Alice" "Abcdefghi1" none true).isLoading = true ∧
    (handleSubmit (FormState.mk "Alice" "Abcdefghi1" none true)
        RawOutcome.fetchThrow).2.fetches ≠ [] := by decide

/-- Claim C4 amended: when the form is invalid (username blank after
trimming, or the password has unmet rules, which also covers an empty
password), the submit handler performs no network call, emits no
signal, and modifies no field of `FormState` except `lastError`, which
is reset to null before the validity check. The in-flight case of the
original claim is not handled inside the handler; it is prevented by
the disabled submit control (see claim C3). -/
theorem claim_C4_amended_invalid_noop_except_error_clear (s : FormState) (o : RawOutcome)
    (h : isFormValid s = false) :
    handleSubmit s o = ({ s with apiError := none }, noEffects) :=
  handleSubmit_invalid s o h

/-- Witness for the amended claim C4 at a blank username. -/
theorem claim_C4_amended_witness :
    isFormValid (FormState.mk "" "Abcdefghi1" (some genericErrorMsg) false) = false ∧
    handleSubmit (FormState.mk "" "Abcdefghi1" (some genericErrorMsg) false)
        RawOutcome.fetchThrow
      = ({ FormState.mk "" "Abcdefghi1" (some genericErrorMsg) false with
            apiError := none }, noEffects) :=
  ⟨by decide,
   claim_C4_amended_invalid_noop_except_error_clear _ RawOutcome.fetchThrow (by decide)⟩

/-- Claim C3: while a submission is in flight (`isLoading` true) a
submit event is a complete no-op — the submit control and both inputs
are disabled, so the event does not reach the handler: no second
network call is issued and `lastError` is not altered. Moreover, in
any state satisfying the in-flight invariant (an outstanding fetch
implies `isLoading`), a step preserves that invariant and never issues
a fetch while one is outstanding: at most one submission is in flight
per controller instance. -/
theorem step_done (sys : Sys) (e : Event) (hc : sys.userWasCreated = true) :
    step sys e = (sys, noEffects) := by
  simp [step, hc]

theorem step_username_loading (sys : Sys) (v : String) (hc : sys.userWasCreated = false)
    (hl : sys.form.isLoading = true) :
    step sys (Event.setUsernameEv v) = (sys, noEffects) := by
  simp [step, hc, hl]

theorem step_username_idle (sys : Sys) (v : String) (hc : sys.userWasCreated = false)
    (hl : sys.form.isLoading = false) :
    step sys (Event.setUsernameEv v)
      = ({ sys with form := { sys.form with username := v } }, noEffects) := by
  simp [step, hc, hl]

theorem step_password_loading (sys : Sys) (v : String) (hc : sys.userWasCreated = false)
    (hl : sys.form.isLoading = true) :
    step sys (Event.setPasswordEv v) = (sys, noEffects) := by
  simp [step, hc, hl]

theorem step_password_idle (sys : Sys) (v : String) (hc : sys.userWasCreated = false)
    (hl : sys.form.isLoading = false) :
    step sys (Event.setPasswordEv v)
      = ({ sys with form := { sys.form with password := v } }, noEffects) := by
  simp [step, hc, hl]

theorem step_submit_disabled (sys : Sys) (hc : sys.userWasCreated = false)
    (hd : buttonDisabled sys.form = true) :
    step sys Event.submitEv = (sys, noEffects) := by
  simp [step, hc, hd]

theorem buttonEnabled_isLoading (s : FormState) (hd : buttonDisabled s = false) :
    s.isLoading = false :=
  (Bool.or_eq_false_iff.mp (by rwa [buttonDisabled] at hd)).1

theorem buttonEnabled_isFormValid (s : FormState) (hd : buttonDisabled s = false) :
    isFormValid s = true := by
  have h2 := (Bool.or_eq_false_iff.mp (by rwa [buttonDisabled] at hd)).2
  simpa using h2

theorem step_submit_enabled (sys : Sys) (hc : sys.userWasCreated = false)
    (hd : buttonDisabled sys.form = false) :
    step sys Event.submitEv
      = (Sys.mk { sys.form with apiError := none, isLoading := true } false true,
         Effects.mk [(sys.form.username, sys.form.password)] []) := by
  simp [step, hc, hd, submitStart_valid _ (buttonEnabled_isFormValid _ hd)]

theorem step_resolve_inflight (sys : Sys) (o : RawOutcome) (hc : sys.userWasCreated = false)
    (hf : sys.inFlight = true) :
    step sys (Event.resolveEv o)
      = (Sys.mk (submitFinish sys.form o).1
           ((submitFinish sys.form o).2.any (fun b => b)) false,
         Effects.mk [] (submitFinish sys.form o).2) := by
  simp [step, hc, hf]

theorem step_resolve_idle (sys : Sys) (o : RawOutcome) (hc : sys.userWasCreated = false)
    (hf : sys.inFlight = false) :
    step sys (Event.resolveEv o) = (sys, noEffects) := by
  simp [step, hc, hf]

theorem claim_C3_no_second_submission :
    (∀ (sys : Sys), sys.form.isLoading = true →
       step sys Event.submitEv = (sys, noEffects)) ∧
    (∀ (sys : Sys) (e : Event), (sys.inFlight = true → sys.form.isLoading = true) →
       ((step sys e).1.inFlight = true → (step sys e).1.form.isLoading = true) ∧
       (sys.inFlight = true → (step sys e).2.fetches = [])) := by
  constructor
  · intro sys h
    cases hcc : sys.userWasCreated with
    | true => exact step_done sys _ hcc
    | false =>
      have hd : buttonDisabled sys.form = true := by
        rw [buttonDisabled, h]
        rfl
      exact step_submit_disabled sys hcc hd
  · intro sys e hinv
    cases hcc : sys.userWasCreated with
    | true =>
      rw [step_done sys e hcc]
      exact ⟨fun hf => hinv hf, fun _ => rfl⟩
    | false =>
      cases e with
      | setUsernameEv v =>
        cases hl : sys.form.isLoading with
        | true =>
          rw [step_username_loading sys v hcc hl]
          exact ⟨fun hf => hinv hf, fun _ => rfl⟩
        | false =>
          rw [step_username_idle sys v hcc hl]
          exact ⟨fun hf => hinv hf, fun _ => rfl⟩
      | setPasswordEv v =>
        cases hl : sys.form.isLoading with
        | true =>
          rw [step_password_loading sys v hcc hl]
          exact ⟨fun hf => hinv hf, fun _ => rfl⟩
        | false =>
          rw [step_password_idle sys v hcc hl]
          exact ⟨fun hf => hinv hf, fun _ => rfl⟩
      | submitEv =>
        cases hd : buttonDisabled sys.form with
        | true =>
          rw [step_submit_disabled sys hcc hd]
          exact ⟨fun hf => hinv hf, fun _ => rfl⟩
        | false =>
          rw [step_submit_enabled sys hcc hd]
          have hl : sys.form.isLoading = false := buttonEnabled_isLoading _ hd
          refine ⟨fun _ => rfl, fun hf => ?_⟩
          exact absurd (hl.symm.trans (hinv hf)) Bool.false_ne_true
      | resolveEv o =>
        cases hf : sys.inFlight with
        | true =>
          rw [step_resolve_inflight sys o hcc hf]
          exact ⟨fun h1 => absurd h1 Bool.false_ne_true, fun _ => rfl⟩
        | false =>
          rw [step_resolve_idle sys o hcc hf]
          exact ⟨fun h1 => hinv h1, fun _ => rfl⟩

/-- Witness for claim C3: a concrete in-flight state on which a submit
event is a no-op, and a concrete in-flight state on which a resolve
step issues no fetch. -/
theorem claim_C3_no_second_submission_witness :
    step (Sys.mk (FormState.mk "Alice" "Abcdefghi1" none true) false true)
        Event.submitEv
      = (Sys.mk (FormState.mk "Alice" "Abcdefghi1" none true) false true, noEffects) ∧
    (step (Sys.mk (FormState.mk "Alice" "Abcdefghi1" none true) false true)
        (Event.resolveEv RawOutcome.fetchThrow)).2.fetches = [] :=
  ⟨claim_C3_no_second_submission.1 _ rfl,
   (claim_C3_no_second_submission.2 _ (Event.resolveEv RawOutcome.fetchThrow)
      (fun _ => rfl)).2 rfl⟩

/-- Claim C5: resolving an outstanding submission with any 2xx response
(body content irrelevant) emits the success signal with value true
exactly once, hands the success to the owning caller, puts the workflow
in the terminal Succeeded status with `lastError` null, and from a
signalled instance no further step changes anything (the owner discards
the form; modelled from the spec). -/
theorem claim_C5_success_terminal :
    (∀ (sys : Sys) (status : Nat) (body : ErrorBody),
       sys.userWasCreated = false → sys.inFlight = true → sys.form.apiError = none →
       200 ≤ status → status < 300 →
       ((step sys (Event.resolveEv (RawOutcome.response status body))).2.signals = [true] ∧
        (step sys (Event.resolveEv (RawOutcome.response status body))).1.userWasCreated
          = true ∧
        submissionStatus (step sys (Event.resolveEv (RawOutcome.response status body))).1
          = Status.Succeeded ∧
        (step sys (Event.resolveEv (RawOutcome.response status body))).1.form.apiError
          = none)) ∧
    (∀ (sys : Sys) (e : Event), sys.userWasCreated = true → step sys e = (sys, noEffects)) := by
  constructor
  · intro sys status body hc hf ha h200 h300
    have hok : responseOk status = true := decide_eq_true ⟨h200, h300⟩
    rw [step_resolve_inflight sys _ hc hf, submitFinish_ok _ status body hok]
    exact ⟨rfl, rfl, rfl, ha⟩
  · intro sys e hc
    exact step_done sys e hc

/-- Witness for claim C5 at a concrete in-flight state and a 200
response, and a concrete signalled state with a further submit event. -/
theorem claim_C5_success_terminal_witness :
    ((Sys.mk (FormState.mk "Alice" "Abcdefghi1" none true) false true).userWasCreated
        = false ∧ 200 ≤ 200 ∧ 200 < 300) ∧
    ((step (Sys.mk (FormState.mk "Alice" "Abcdefghi1" none true) false true)
        (Event.resolveEv (RawOutcome.response 200 (ErrorBody.parsed none)))).2.signals
      = [true] ∧
     (step (Sys.mk (FormState.mk "Alice" "Abcdefghi1" none true) false true)
        (Event.resolveEv (RawOutcome.response 200 (ErrorBody.parsed none)))).1.userWasCreated
      = true ∧
     submissionStatus (step (Sys.mk (FormState.mk "Alice" "Abcdefghi1" none true) false true)
        (Event.resolveEv (RawOutcome.response 200 (ErrorBody.parsed none)))).1
      = Status.Succeeded ∧
     (step (Sys.mk (FormState.mk "Alice" "Abcdefghi1" none true) false true)
        (Event.resolveEv (RawOutcome.response 200 (ErrorBody.parsed none)))).1.form.apiError
      = none) ∧
    step (Sys.mk (FormState.mk "Bob" "Abcdefghi1" none false) true false) Event.submitEv
      = (Sys.mk (FormState.mk "Bob" "Abcdefghi1" none false) true false, noEffects) :=
  ⟨⟨rfl, by decide, by decide⟩,
   claim_C5_success_terminal.1 _ 200 _ rfl rfl rfl (by decide) (by decide),
   claim_C5_success_terminal.2 _ Event.submitEv rfl⟩

/-- Claim C6: a failure to parse the error-response body never raises a
fault out of the submit handler: the try block always succeeds on a
settled response (the only fault that can reach the outer catch is the
network fault of a rejected fetch, which the catch recovers); on a
non-2xx response with an un-parseable body, `lastError` falls back to
the default message (the authentication message for 401/403, which by
precedence never consult the body); and a transport failure yields the
default message with the Submitting flag returned to false (Idle). -/
theorem claim_C6_no_fault_escapes :
    (∀ (s : FormState) (status : Nat) (body : ErrorBody),
       jsonE body = Except.error Fault.parse →
       ∃ v, tryBlock s (RawOutcome.response status body) = Except.ok v) ∧
    (∀ (s : FormState) (o : RawOutcome),
       (∃ v, tryBlock s o = Except.ok v) ∨ tryBlock s o = Except.error Fault.network) ∧
    (∀ (s : FormState) (status : Nat) (body : ErrorBody),
       jsonE body = Except.error Fault.parse → ¬ (200 ≤ status ∧ status < 300) →
       (submitFinish s (RawOutcome.response status body)).1.apiError
         = some (if status = 401 ∨ status = 403 then authErrorMsg else genericErrorMsg)) ∧
    (∀ (s : FormState),
       (submitFinish s RawOutcome.fetchThrow).1.apiError = some genericErrorMsg ∧
       (submitFinish s RawOutcome.fetchThrow).1.isLoading = false) := by
  refine ⟨?_, ?_, ?_, ?_⟩
  · intro s status body _
    rw [tryBlock]
    by_cases hok : responseOk status = true
    · rw [if_pos hok]
      exact ⟨_, rfl⟩
    · rw [if_neg hok]
      exact ⟨_, rfl⟩
  · intro s o
    cases o with
    | fetchThrow => exact Or.inr rfl
    | response status body =>
      refine Or.inl ?_
      rw [tryBlock]
      by_cases hok : responseOk status = true
      · rw [if_pos hok]
        exact ⟨_, rfl⟩
      · rw [if_neg hok]
        exact ⟨_, rfl⟩
  · intro s status body hb h
    cases body with
    | parsed m => exact absurd hb (by simp [jsonE])
    | malformed =>
      have hok : responseOk status = false := by
        rw [responseOk]
        exact decide_eq_false h
      rw [submitFinish_err s status _ hok]
      show some (classifyError status ErrorBody.malformed) = _
      rw [classifyError]
      by_cases h1 : status = 401 ∨ status = 403
      · rw [if_pos h1, if_pos h1]
      · rw [if_neg h1, if_neg h1]
        have h2 : ¬ (status = 400 ∧ bodyMentionsNotAllowed ErrorBody.malformed = true) := by
          rintro ⟨-, hmm⟩
          exact (by decide : ¬ (bodyMentionsNotAllowed ErrorBody.malformed = true)) hmm
        rw [if_neg h2]
        by_cases h3 : status = 500
        · rw [if_pos h3]
        · rw [if_neg h3]
  · intro s
    exact ⟨rfl, rfl⟩

/-- Witness for claim C6 at a 400 response with an un-parseable body and
at a transport failure. -/
theorem claim_C6_no_fault_escapes_witness :
    jsonE ErrorBody.malformed = Except.error Fault.parse ∧
    (∃ v, tryBlock (FormState.mk "Alice" "Abcdefghi1" none true)
        (RawOutcome.response 400 ErrorBody.malformed) = Except.ok v) ∧
    ¬ (200 ≤ 400 ∧ 400 < 300) ∧
    (submitFinish (FormState.mk "Alice" "Abcdefghi1" none true)
        (RawOutcome.response 400 ErrorBody.malformed)).1.apiError
      = some (if (400 : Nat) = 401 ∨ (400 : Nat) = 403 then authErrorMsg
              else genericErrorMsg) ∧
    ((submitFinish (FormState.mk "Alice" "Abcdefghi1" none true)
        RawOutcome.fetchThrow).1.apiError = some genericErrorMsg ∧
     (submitFinish (FormState.mk "Alice" "Abcdefghi1" none true)
        RawOutcome.fetchThrow).1.isLoading = false) :=
  ⟨rfl,
   claim_C6_no_fault_escapes.1 _ 400 _ rfl,
   by decide,
   claim_C6_no_fault_escapes.2.2.1 _ 400 _ rfl (by decide),
   claim_C6_no_fault_escapes.2.2.2 _⟩
